import Mathlib

/-!
Verification of the WebAuthn login ceremony core (`webauthn/login.go` and the
`protocol` package's `CollectedClientData.Verify`), shallowly embedded in Lean.

Bytes are modelled as `List Nat` (the Go code treats byte slices opaquely and
only compares them); Go's `base64` and `net/url` standard-library behaviour is
modelled directly, restricted to the semantics the verified code exercises.
A Go runtime panic (index out of range) is modelled as an explicit outcome.
-/

deriving instance DecidableEq for Except

namespace Webauthn

abbrev Bytes := List Nat

/-- `protocol.CeremonyType`: "webauthn.create" / "webauthn.get". -/
inductive CeremonyType
  | create
  | assert
deriving DecidableEq

/-- `protocol.TokenBindingStatus`: "present" / "supported". -/
inductive TokenBindingStatus
  | present
  | supported
deriving DecidableEq

/-- `protocol.TokenBinding` {Status, ID}. -/
structure TokenBinding where
  status : TokenBindingStatus
  id : String
deriving DecidableEq

/-- `protocol.CollectedClientData` {Type, Challenge, Origin, TokenBinding}. -/
structure CollectedClientData where
  type : CeremonyType
  challenge : String
  origin : String
  tokenBinding : Option TokenBinding
deriving DecidableEq

/-! ### Go `encoding/base64` model

The source uses `base64.RawStdEncoding.DecodeString` (standard alphabet, no
padding; `\r` and `\n` ignored; on a corrupt input Go returns the bytes decoded
before the corrupt quantum together with the error) and
`base64.StdEncoding.Encode(dst, src)` (standard alphabet with `=` padding,
writing `EncodedLen(len(src))` bytes into `dst` and panicking with an
index-out-of-range error when `dst` is shorter; a `dst` from `make` is
zero-filled beyond the written prefix). -/

/-- Index of a character in the standard base64 alphabet `A-Za-z0-9+/`. -/
def b64Index (ch : Char) : Option Nat :=
  if 'A' ≤ ch ∧ ch ≤ 'Z' then some (ch.toNat - 65)
  else if 'a' ≤ ch ∧ ch ≤ 'z' then some (ch.toNat - 97 + 26)
  else if '0' ≤ ch ∧ ch ≤ '9' then some (ch.toNat - 48 + 52)
  else if ch = '+' then some 62
  else if ch = '/' then some 63
  else none

def decode4 (a b c d : Nat) : Bytes :=
  [a * 4 + b / 16, b % 16 * 16 + c / 4, c % 4 * 64 + d]

def decode3 (a b c : Nat) : Bytes :=
  [a * 4 + b / 16, b % 16 * 16 + c / 4]

def decode2 (a b : Nat) : Bytes :=
  [a * 4 + b / 16]

/-- Unpadded standard-alphabet base64 decoding of a character list; an error
carries the bytes decoded before the corrupt quantum, as Go's decoder returns
them. A trailing quantum of one character is corrupt. -/
def rawStdDecodeList : List Char → Except Bytes Bytes
  | [] => .ok []
  | [c1, c2] =>
    match b64Index c1, b64Index c2 with
    | some a, some b => .ok (decode2 a b)
    | _, _ => .error []
  | [c1, c2, c3] =>
    match b64Index c1, b64Index c2, b64Index c3 with
    | some a, some b, some c => .ok (decode3 a b c)
    | _, _, _ => .error []
  | [_] => .error []
  | c1 :: c2 :: c3 :: c4 :: rest =>
    match b64Index c1, b64Index c2, b64Index c3, b64Index c4 with
    | some a, some b, some c, some d =>
      match rawStdDecodeList rest with
      | .ok bs => .ok (decode4 a b c d ++ bs)
      | .error bs => .error (decode4 a b c d ++ bs)
    | _, _, _, _ => .error []

/-- `base64.RawStdEncoding.DecodeString`: newline characters are ignored. -/
def rawStdDecode (s : String) : Except Bytes Bytes :=
  rawStdDecodeList (s.toList.filter (fun ch => ch ≠ '\n' ∧ ch ≠ '\r'))

/-- Byte value of the standard-alphabet base64 character at index `i`. -/
def b64Char (i : Nat) : Nat :=
  if i < 26 then 65 + i
  else if i < 52 then 97 + (i - 26)
  else if i < 62 then 48 + (i - 52)
  else if i = 62 then 43
  else 47

/-- Padded standard-alphabet base64 encoding (`=` is byte 61). -/
def stdEncode : Bytes → Bytes
  | [] => []
  | [b1] => [b64Char (b1 / 4), b64Char (b1 % 4 * 16), 61, 61]
  | [b1, b2] => [b64Char (b1 / 4), b64Char (b1 % 4 * 16 + b2 / 16), b64Char (b2 % 16 * 4), 61]
  | b1 :: b2 :: b3 :: rest =>
    b64Char (b1 / 4) :: b64Char (b1 % 4 * 16 + b2 / 16) ::
      b64Char (b2 % 16 * 4 + b3 / 64) :: b64Char (b3 % 64) :: stdEncode rest

/-- `base64.StdEncoding.EncodedLen`. -/
def encodedLen (n : Nat) : Nat := (n + 2) / 3 * 4

/-- `base64.StdEncoding.Encode(dst, src)` with `dst := make([]byte, dstLen)`:
`none` models the index-out-of-range panic raised when `dst` is too short for a
non-empty `src`; otherwise the contents of `dst` afterwards (the encoding
followed by the untouched zero bytes of `make`). -/
def goEncodeInto (dstLen : Nat) (src : Bytes) : Option Bytes :=
  if src.length ≠ 0 ∧ dstLen < encodedLen src.length then none
  else some (stdEncode src ++ List.replicate (dstLen - encodedLen src.length) 0)

/-! ### Go `net/url` model

`Verify` only consults `url.Parse(origin)` followed by `.Hostname()`.  The
model covers the URL shapes a client origin can take: an absolute URL
`scheme://[userinfo@]host[:port][/path][?query][#fragment]`, a
protocol-relative `//host...`, an opaque `scheme:...` (empty host) and a
scheme-less relative reference (empty host).  As in Go, a leading `:` with no
scheme and ASCII control characters are parse errors, and `Hostname()` strips
the part after the first `:` of the host (or the brackets of an IPv6
literal). -/

/-- Splits a character list at the first character satisfying `sep` (the
separator stays at the head of the second component). -/
def splitFirst (sep : Char → Bool) : List Char → List Char × List Char
  | [] => ([], [])
  | c :: rest =>
    if sep c then ([], c :: rest)
    else
      let (a, b) := splitFirst sep rest
      (c :: a, b)

/-- Characters allowed in a URL scheme after the leading letter. -/
def isSchemeChar (ch : Char) : Bool :=
  ch.isAlpha ∨ ch.isDigit ∨ ch = '+' ∨ ch = '-' ∨ ch = '.'

/-- The parsed fields of `url.URL` that `Verify` consumes. -/
structure GoURL where
  scheme : List Char
  host : List Char
deriving DecidableEq

/-- Splits a leading valid `scheme:` prefix off a URL, if present. -/
def parseScheme (cs : List Char) : Option (List Char × List Char) :=
  match splitFirst (fun ch => ch = ':') cs with
  | (pre, ':' :: rest) =>
    if pre ≠ [] ∧ (pre.headD 'a').isAlpha ∧ pre.all isSchemeChar then some (pre, rest)
    else none
  | _ => none

/-- Extracts the host from an authority: drop the userinfo before the last
`@`, then reject hosts holding characters Go refuses. -/
def parseAuthority (rest : List Char) : Except Unit (List Char) :=
  let auth := (splitFirst (fun ch => ch = '/' ∨ ch = '?' ∨ ch = '#') rest).1
  let host :=
    if auth.contains '@' then (auth.reverse.takeWhile (fun ch => ch ≠ '@')).reverse
    else auth
  if host.any (fun ch => ch = ' ' ∨ ch = '<' ∨ ch = '>' ∨ ch = '"') then .error ()
  else .ok host

/-- `url.Parse`, restricted as described above. -/
def urlParse (s : String) : Except Unit GoURL :=
  let cs := s.toList
  if cs.any (fun ch => ch.toNat < 32 ∨ ch.toNat = 127) then .error ()
  else
    match parseScheme cs with
    | some (sch, '/' :: '/' :: rest) =>
      match parseAuthority rest with
      | .ok host => .ok ⟨sch, host⟩
      | .error e => .error e
    | some (sch, _) => .ok ⟨sch, []⟩
    | none =>
      match cs with
      | ':' :: _ => .error ()
      | '/' :: '/' :: rest =>
        match parseAuthority rest with
        | .ok host => .ok ⟨[], host⟩
        | .error e => .error e
      | _ => .ok ⟨[], []⟩

/-- `url.URL.Hostname()`: the host with any `:port` suffix removed, and the
brackets of an IPv6 literal stripped. -/
def Hostname (u : GoURL) : List Char :=
  if u.host.contains ':' then
    if u.host.contains ']' then
      match (splitFirst (fun ch => ch = ']') u.host).1 with
      | '[' :: t => t
      | l => l
    else (splitFirst (fun ch => ch = ':') u.host).1
  else u.host

/-! ### `protocol.CollectedClientData.Verify` -/

/-- Every way `Verify` can come back to its caller, one constructor per
return site of the source, plus `panicked` for the index-out-of-range panic
`base64.StdEncoding.Encode` raises when its destination buffer is too short. -/
inductive VerifyOutcome
  | ok
  | typeMismatch
  | malformedChallenge
  | challengeMismatch
  | malformedOrigin
  | originMismatch
  | panicked
deriving DecidableEq

/-- `func (c *CollectedClientData) Verify(storedChallenge, ceremony,
relyingPartyOrigin)`.  Faithful to the source order: the ceremony-type check;
then `clientChallengeBytes := RawStdEncoding.DecodeString(c.Challenge)`,
`encodedStoredChallenge := make([]byte, len(clientChallengeBytes))` and
`StdEncoding.Encode(encodedStoredChallenge, storedChallenge)` (which runs — and
can panic — before the decode error is examined); then `bytes.Equal` of the
encoded stored challenge against the decoded client challenge; then
`url.Parse(c.Origin)` and comparison of `Hostname()` with
`relyingPartyOrigin`.  The token-binding step is absent from the source. -/
def Verify (c : CollectedClientData) (storedChallenge : Bytes)
    (ceremony : CeremonyType) (relyingPartyOrigin : String) : VerifyOutcome :=
  if c.type ≠ ceremony then .typeMismatch
  else
    let dec := rawStdDecode c.challenge
    let clientChallengeBytes := match dec with | .ok bs => bs | .error bs => bs
    match goEncodeInto clientChallengeBytes.length storedChallenge with
    | none => .panicked
    | some encodedStoredChallenge =>
      match dec with
      | .error _ => .malformedChallenge
      | .ok _ =>
        if encodedStoredChallenge ≠ clientChallengeBytes then .challengeMismatch
        else
          match urlParse c.origin with
          | .error _ => .malformedOrigin
          | .ok u =>
            if Hostname u ≠ relyingPartyOrigin.toList then .originMismatch
            else .ok

/-! ### The `webauthn` package: `BeginLogin` / `FinishLogin` -/

/-- `webauthn.SessionData` {Challenge, UserID}. -/
structure SessionData where
  challenge : Bytes
  userID : Bytes
deriving DecidableEq

/-- The fields of `protocol.PublicKeyCredentialRequestOptions` that
`BeginLogin` populates. -/
structure PublicKeyCredentialRequestOptions where
  challenge : Bytes
  timeout : Nat
deriving DecidableEq

/-- `webauthn.LoginOption`: a caller-supplied modifier of the request options
(the Go closure mutates through a pointer; here it returns the new value). -/
abbrev LoginOption := PublicKeyCredentialRequestOptions → PublicKeyCredentialRequestOptions

/-- The field of `webauthn.Config` that `BeginLogin` reads. -/
structure WebAuthnConfig where
  timeout : Nat
deriving DecidableEq

/-- `webauthn.Credential` — opaque to `login.go`, which only ever returns a
nil pointer of this type; modelled as `Option Credential` with `none` for nil. -/
structure Credential where
  id : Bytes
deriving DecidableEq

/-- `WebAuthn.BeginLogin(user, opts...)`.  `p.CreateChallenge()` lives outside
the sources; its outcome is the `challengeResult` parameter (modelled from the
spec §4.1: a fresh random byte sequence, or an entropy failure that aborts the
ceremony).  `user.WebAuthnID()` is passed as `userWebAuthnID`.  As in the
source, the option setters run over the request options after the challenge
and timeout defaults are set, and the session data is built from the local
`challenge` variable afterwards. -/
def BeginLogin (config : WebAuthnConfig) (userWebAuthnID : Bytes)
    (challengeResult : Except Unit Bytes) (opts : List LoginOption) :
    Except Unit (PublicKeyCredentialRequestOptions × SessionData) :=
  match challengeResult with
  | .error e => .error e
  | .ok challenge =>
    let requestOptions : PublicKeyCredentialRequestOptions :=
      { challenge := challenge, timeout := config.timeout }
    let requestOptions := opts.foldl (fun o setter => setter o) requestOptions
    let sessionData : SessionData :=
      { challenge := challenge, userID := userWebAuthnID }
    .ok (requestOptions, sessionData)

/-- Modelled from the spec (§3 CredentialResponse, §4.3): the structured
response produced by `p.ParseCredentialCreationResponse`, whose code is outside
the sources; the one part the claims need is the embedded collected client
data. -/
structure ParsedCredentialCreationData where
  clientData : CollectedClientData
deriving DecidableEq

/-- The nil-able error results `FinishLogin` produces. -/
inductive FinishLoginError
  | badRequest (details : String)
deriving DecidableEq

set_option linter.unusedVariables false in
/-- `WebAuthn.FinishLogin(user, session, response)`.  The raw request and its
parsing by `p.ParseCredentialCreationResponse` live outside the sources; the
parse outcome is the `parseResult` parameter.  Faithful to the source: the
statement `if !bytes.Equal(user.WebAuthnID(), session.UserID) { p.ErrBadRequest.WithDetails("ID mismatch for User and Session") }`
builds an error value and discards it without returning, so it cannot affect
the result and the session fields are otherwise never read; on a parse error
the function returns `(nil, ErrBadRequest.WithDetails("fuddck"))`; otherwise it
prints the parsed response and returns `(nil, nil)`. -/
def FinishLogin (userWebAuthnID : Bytes) (session : SessionData)
    (parseResult : Except Unit ParsedCredentialCreationData) :
    Option Credential × Option FinishLoginError :=
  match parseResult with
  | .error _ => (none, some (.badRequest "fuddck"))
  | .ok _ => (none, none)

/-! ## Theorems about the claims -/

/-- C1: the challenge comparison does not operate on raw decoded bytes on both
sides.  With `storedChallenge = [0,0,0]`, the client challenge "AAAA" — whose
decoded bytes equal the stored bytes, so the claim demands acceptance — makes
`Verify` panic (the 4-byte encoding of the stored challenge is written into the
3-byte buffer sized from the decoded client challenge), while "QUFBQQ" — whose
decoded bytes [65,65,65,65] differ from the stored bytes, so the claim demands
rejection — is accepted, because [65,65,65,65] is exactly
`base64.StdEncoding` applied to the stored bytes. -/
theorem verify_challenge_compare_not_raw_bytes :
    rawStdDecode "AAAA" = .ok [0, 0, 0] ∧
    Verify ⟨.assert, "AAAA", "https://example.com", none⟩ [0, 0, 0]
      .assert "example.com" = .panicked ∧
    rawStdDecode "QUFBQQ" = .ok [65, 65, 65, 65] ∧
    ([65, 65, 65, 65] : Bytes) ≠ [0, 0, 0] ∧
    Verify ⟨.assert, "QUFBQQ", "https://example.com", none⟩ [0, 0, 0]
      .assert "example.com" = .ok := by
  decide

/-- C2: `FinishLogin` never invokes `Verify`: a parsed response whose embedded
client data fails every gate of `Verify` against the session challenge,
ceremony `Assert` and the configured origin still yields `(nil, nil)`. -/
theorem finishLogin_returns_without_verification :
    Verify ⟨.create, "AAAA", "https://other.example", none⟩ [1, 2, 3]
      .assert "example.com" ≠ .ok ∧
    FinishLogin [7] ⟨[1, 2, 3], [7]⟩
      (.ok ⟨⟨.create, "AAAA", "https://other.example", none⟩⟩) = (none, none) := by
  decide

/-- C3: with `user.WebAuthnID() = [1] ≠ [2] = session.UserID`, `FinishLogin`
does not return a `UserMismatch` error: the mismatch branch discards the error
it builds, the body is still parsed, and the result is `(nil, nil)` on parse
success and the parse error otherwise. -/
theorem finishLogin_ignores_user_mismatch :
    ([1] : Bytes) ≠ [2] ∧
    FinishLogin [1] ⟨[], [2]⟩
      (.ok ⟨⟨.assert, "", "https://example.com", none⟩⟩) = (none, none) ∧
    FinishLogin [1] ⟨[], [2]⟩ (.error ()) =
      (none, some (.badRequest "fuddck")) := by
  decide

/-- C4: the origin check compares only `url.Hostname()`: with configured
origin "example.com", the client origins "https://example.com" and
"http://example.com:8080/path?q=1" — which differ from each other in scheme
and port, so under the claim at most one of them could match the configured
scheme+host+port — are both accepted, while a host difference is rejected. -/
theorem verify_origin_compares_hostname_only :
    Verify ⟨.assert, "", "https://example.com", none⟩ []
      .assert "example.com" = .ok ∧
    Verify ⟨.assert, "", "http://example.com:8080/path?q=1", none⟩ []
      .assert "example.com" = .ok ∧
    Verify ⟨.assert, "", "https://evil.example.com", none⟩ []
      .assert "example.com" = .originMismatch := by
  decide

/-- C5: whenever `clientData.Type` differs from the expected ceremony,
`Verify` returns the type-mismatch error, whatever the challenge, the stored
challenge and the origin are — the type check is the first gate and
short-circuits everything after it. -/
theorem verify_type_mismatch_first (c : CollectedClientData) (storedChallenge : Bytes)
    (ceremony : CeremonyType) (relyingPartyOrigin : String)
    (h : c.type ≠ ceremony) :
    Verify c storedChallenge ceremony relyingPartyOrigin = .typeMismatch := by
  unfold Verify
  rw [if_pos h]

/-- Witness for C5: a creation-type client data with otherwise acceptable
challenge and origin is rejected as a type mismatch in an assertion ceremony. -/
theorem verify_type_mismatch_first_witness :
    (⟨.create, "QUFBQQ", "https://example.com", none⟩ : CollectedClientData).type ≠ .assert ∧
    Verify ⟨.create, "QUFBQQ", "https://example.com", none⟩ [0, 0, 0]
      .assert "example.com" = .typeMismatch :=
  ⟨by decide,
   verify_type_mismatch_first ⟨.create, "QUFBQQ", "https://example.com", none⟩
     [0, 0, 0] .assert "example.com" (by decide)⟩

/-- C6: `Verify` does not always return a typed result: with a 16-byte stored
challenge, a well-formed client challenge "AAAA" (shorter than the stored
challenge's encoding) drives `base64.StdEncoding.Encode` into an
index-out-of-range panic, and an ill-formed client challenge "!!!!" panics the
same way instead of reporting `MalformedChallenge`, because the decode error
is only examined after the encode step. -/
theorem verify_panics_on_short_client_challenge :
    Verify ⟨.assert, "AAAA", "https://example.com", none⟩ (List.replicate 16 0)
      .assert "example.com" = .panicked ∧
    Verify ⟨.assert, "!!!!", "https://example.com", none⟩ (List.replicate 16 0)
      .assert "example.com" = .panicked := by
  decide

/-- C7 counterexample: a login option that overrides the challenge makes the
returned request options carry challenge [9,9] while the session data keeps
the generated challenge [1,2,3], so the two are not byte-identical. -/
theorem beginLogin_modifier_overrides_challenge :
    BeginLogin ⟨60000⟩ [7] (.ok [1, 2, 3]) [fun o => ⟨[9, 9], o.timeout⟩] =
      .ok (⟨[9, 9], 60000⟩, ⟨[1, 2, 3], [7]⟩) ∧
    ([9, 9] : Bytes) ≠ [1, 2, 3] := by
  decide

/-- Option setters that keep the challenge field fixed leave the challenge of
a folded options value unchanged. -/
theorem foldl_setters_preserve_challenge (opts : List LoginOption)
    (h : ∀ setter ∈ opts, ∀ o, (setter o).challenge = o.challenge)
    (init : PublicKeyCredentialRequestOptions) :
    (opts.foldl (fun o setter => setter o) init).challenge = init.challenge := by
  induction opts generalizing init with
  | nil => rfl
  | cons setter rest ih =>
    rw [List.foldl_cons]
    rw [ih (fun s hs o => h s (List.mem_cons_of_mem _ hs) o) (setter init)]
    exact h setter (List.mem_cons_self _ _) init

/-- C7 amended: `BeginLogin` binds the generated challenge and
`user.WebAuthnID()` into the session data, and the returned options' challenge
is the result of the modifiers, so the two challenges are byte-identical
whenever no modifier overrides the challenge field (modifiers can override
it). -/
theorem beginLogin_challenge_binding (config : WebAuthnConfig)
    (userWebAuthnID challenge : Bytes) (opts : List LoginOption)
    (h : ∀ setter ∈ opts, ∀ o, (setter o).challenge = o.challenge) :
    ∃ requestOptions sessionData,
      BeginLogin config userWebAuthnID (.ok challenge) opts =
        .ok (requestOptions, sessionData) ∧
      sessionData.userID = userWebAuthnID ∧
      sessionData.challenge = challenge ∧
      requestOptions.challenge = sessionData.challenge :=
  ⟨_, _, rfl, rfl, rfl, foldl_setters_preserve_challenge opts h _⟩

/-- Witness for C7 amended: a timeout-only modifier leaves the options'
challenge byte-identical to the session challenge. -/
theorem beginLogin_challenge_binding_witness :
    ∃ requestOptions sessionData,
      BeginLogin ⟨60000⟩ [7] (.ok [1, 2, 3]) [fun o => ⟨o.challenge, 5000⟩] =
        .ok (requestOptions, sessionData) ∧
      sessionData.userID = [7] ∧
      sessionData.challenge = [1, 2, 3] ∧
      requestOptions.challenge = sessionData.challenge :=
  beginLogin_challenge_binding ⟨60000⟩ [7] [1, 2, 3] [fun o => ⟨o.challenge, 5000⟩]
    (by
      intro setter hs o
      rcases List.mem_singleton.mp hs with rfl
      rfl)

/-- C9: `Verify` never reads the token-binding field (the source's step 6/10 is
absent), so two client data values differing only in `TokenBinding` always
produce the same verdict — the check is skipped and is not a hard gate. -/
theorem verify_independent_of_token_binding (c : CollectedClientData)
    (tb : Option TokenBinding) (storedChallenge : Bytes)
    (ceremony : CeremonyType) (relyingPartyOrigin : String) :
    Verify { c with tokenBinding := tb } storedChallenge ceremony relyingPartyOrigin =
      Verify c storedChallenge ceremony relyingPartyOrigin := rfl

/-- C10: `FinishLogin` always returns a nil credential, and on parse success
it returns `(nil, nil)`, so no caller can obtain a credential from it. -/
theorem finishLogin_credential_always_nil (userWebAuthnID : Bytes)
    (session : SessionData) (parseResult : Except Unit ParsedCredentialCreationData) :
    (FinishLogin userWebAuthnID session parseResult).1 = none ∧
    ∀ r, parseResult = .ok r →
      FinishLogin userWebAuthnID session parseResult = (none, none) := by
  refine ⟨?_, ?_⟩
  · cases parseResult <;> rfl
  · intro r h
    subst h
    rfl

/-- Witness for C10 at a successfully parsed assertion response. -/
theorem finishLogin_credential_always_nil_witness :
    (FinishLogin [1] ⟨[5], [1]⟩
      (.ok ⟨⟨.assert, "", "https://example.com", none⟩⟩)).1 = none ∧
    FinishLogin [1] ⟨[5], [1]⟩
      (.ok ⟨⟨.assert, "", "https://example.com", none⟩⟩) = (none, none) :=
  ⟨(finishLogin_credential_always_nil [1] ⟨[5], [1]⟩
      (.ok ⟨⟨.assert, "", "https://example.com", none⟩⟩)).1,
   (finishLogin_credential_always_nil [1] ⟨[5], [1]⟩
      (.ok ⟨⟨.assert, "", "https://example.com", none⟩⟩)).2
     ⟨⟨.assert, "", "https://example.com", none⟩⟩ rfl⟩

end Webauthn
